import Mathlib

/-!
# Verification of the dual-channel live-broadcast orchestration service

Shallow embedding of the control-plane logic of the `liveStream` repository
(`src/final.js`, `src/unnamed/part_000`, `src/unnamed/part_001`) and proofs
about it.  Remote-platform calls (YouTube liveStreams / liveBroadcasts) are
modelled either as an explicit platform state (stream resolution) or as
per-call outcome oracles (`Except`-valued environment fields), matching the
awaited network calls of the source.  JavaScript exceptions are modelled with
`Except JsError`.
-/

namespace LiveStream

/-- A thrown JavaScript error.  `error` models `new Error(msg)`; a
`referenceError` is raised when an identifier is not in scope. -/
inductive JsError where
  | error (msg : String)
  | referenceError (msg : String)
deriving DecidableEq

/-- The `.message` property of a JavaScript error. -/
def JsError.message : JsError → String
  | .error m => m
  | .referenceError m => m

/-! ## Title matching (Broadcast Terminator)

`src/unnamed/part_001` lines 435-438 define

```js
function compareStrings(str1, str2) {
  const normalize = (str) => str.trim().replace(/\s+/g, " ");
  return normalize(str1) === normalize(str2);
}
```

`src/final.js` lines 455-459 instead match titles with strict `===` equality
against `title` (academy channel) or `academy.name + " - " + title`
(company channel).
-/

/-- Characters matched by the JavaScript regexp class `\s` (and removed by
`String.prototype.trim`). -/
def isJsWhitespace (c : Char) : Bool :=
  let n := c.toNat
  n == 0x9 || n == 0xA || n == 0xB || n == 0xC || n == 0xD || n == 0x20 ||
  n == 0xA0 || n == 0x1680 || (0x2000 ≤ n && n ≤ 0x200A) ||
  n == 0x2028 || n == 0x2029 || n == 0x202F || n == 0x205F ||
  n == 0x3000 || n == 0xFEFF

/-- JavaScript `str.trim()`: drop leading and trailing whitespace. -/
def jsTrim (s : String) : String :=
  ⟨((s.data.dropWhile isJsWhitespace).reverse.dropWhile isJsWhitespace).reverse⟩

/-- One pass of `str.replace(/\s+/g, " ")`: each maximal run of whitespace
becomes a single space.  The boolean records whether the previous character
was part of a whitespace run. -/
def collapseRuns : Bool → List Char → List Char
  | _, [] => []
  | prevWs, c :: cs =>
    if isJsWhitespace c then
      if prevWs then collapseRuns true cs else ' ' :: collapseRuns true cs
    else c :: collapseRuns false cs

/-- JavaScript `str.replace(/\s+/g, " ")`. -/
def collapseWhitespace (s : String) : String := ⟨collapseRuns false s.data⟩

/-- The `normalize` closure of `compareStrings` (part_001 line 436):
`str.trim().replace(/\s+/g, " ")`. -/
def normalize (s : String) : String := collapseWhitespace (jsTrim s)

/-- `compareStrings` of part_001 lines 435-438. -/
def compareStrings (str1 str2 : String) : Bool := normalize str1 == normalize str2

/-- The matching predicate of part_001's `/end-stream` `endBroadcast`
(line 460-462): `compareStrings(b.snippet.title, title)`.  The channel flag is
accepted by `endBroadcast` but does not influence the match. -/
def part1TitleMatches (broadcastTitle targetTitle : String)
    (_isCompanyChannel : Bool) : Bool :=
  compareStrings broadcastTitle targetTitle

/-- The matching predicate of final.js's `/end-stream` `endBroadcast`
(lines 455-459): strict string equality of the broadcast title against
`title`, or against `academy.name + " - " + title` on the company channel. -/
def finalTitleMatches (academyName targetTitle : String)
    (isCompanyChannel : Bool) (broadcastTitle : String) : Bool :=
  broadcastTitle == (if isCompanyChannel then academyName ++ " - " ++ targetTitle
                     else targetTitle)

/-- C5 counterexample: the claim says the terminator's title matching treats
`"Team A  vs   Team B"` and `"Team A vs Team B"` as equal for every channel
searched, but the final.js terminator (`endBroadcast`, final.js lines 455-459)
compares titles with strict `===` and does not consider them equal on the
academy channel (and the company comparison additionally prepends the academy
name, so it fails there too). -/
theorem finalTitleMatches_not_normalized :
    finalTitleMatches "Acme" "Team A vs Team B" false "Team A  vs   Team B" = false ∧
    finalTitleMatches "Acme" "Team A vs Team B" true "Team A  vs   Team B" = false := by
  decide

/-- C5 (amended): the part_001 terminator's matching function `compareStrings`
compares titles after whitespace normalization (trim plus collapsing internal
whitespace runs to single spaces), so on every channel it searches, the titles
`"Team A  vs   Team B"` and `"Team A vs Team B"` are considered equal; the
final.js terminator instead compares titles by exact string equality. -/
theorem compareStrings_whitespace_normalized :
    (∀ c : Bool, part1TitleMatches "Team A  vs   Team B" "Team A vs Team B" c = true) ∧
    compareStrings "Team A  vs   Team B" "Team A vs Team B" = true ∧
    normalize "Team A  vs   Team B" = "Team A vs Team B" := by
  refine ⟨?_, by decide, by decide⟩
  intro c
  cases c <;> decide

/-! ## `/check-stream-status` (part_001 lines 493-548) -/

/-- One item of a `liveBroadcasts.list` response, restricted to the fields the
status routes read. -/
structure BroadcastStatusRec where
  lifeCycleStatus : String
  boundStreamId : Option String
deriving DecidableEq

/-- One item of a `liveStreams.list` response, restricted to the fields the
status routes read. -/
structure StreamStatusRec where
  streamStatus : String
  healthStatus : String
deriving DecidableEq

/-- The JSON body returned on the success path of `/check-stream-status`
(part_001 lines 536-544). -/
structure CheckStatusResponse where
  broadcastStatus : String
  streamStatus : String
  healthStatus : String
  isReadyToStart : Bool
deriving DecidableEq

/-- Environment of one `/check-stream-status` request: whether the academy was
found, the `liveBroadcasts.list` items for the requested broadcast id, and the
`liveStreams.list` items keyed by the broadcast's bound stream id. -/
structure CheckEnv where
  academyFound : Bool
  broadcastItems : List BroadcastStatusRec
  streamItems : Option String → List StreamStatusRec

/-- Response of the `/check-stream-status` route. -/
inductive CheckResp where
  | errResp (message : String)
  | okResp (r : CheckStatusResponse)
deriving DecidableEq

/-- The `/check-stream-status` handler (part_001 lines 493-548). -/
def checkStreamStatus (env : CheckEnv) : CheckResp :=
  if !env.academyFound then .errResp "Academy not found"
  else
    match env.broadcastItems with
    | [] => .errResp "Broadcast not found"
    | broadcast :: _ =>
      match env.streamItems broadcast.boundStreamId with
      | [] => .errResp "Stream not found"
      | stream :: _ =>
        .okResp
          { broadcastStatus := broadcast.lifeCycleStatus
            streamStatus := stream.streamStatus
            healthStatus := stream.healthStatus
            isReadyToStart :=
              stream.streamStatus == "active" &&
              (broadcast.lifeCycleStatus == "testing" ||
               broadcast.lifeCycleStatus == "ready") }

/-- C10: whenever `/check-stream-status` successfully resolves the broadcast
and its bound stream, `isReadyToStart` is true iff the stream status is
`active` and the broadcast lifecycle status is `testing` or `ready`; in
particular it is false when the broadcast is already `live`. -/
theorem checkStreamStatus_isReady_iff (env : CheckEnv) (r : CheckStatusResponse)
    (h : checkStreamStatus env = .okResp r) :
    (r.isReadyToStart = true ↔
      (r.streamStatus = "active" ∧
        (r.broadcastStatus = "testing" ∨ r.broadcastStatus = "ready"))) ∧
    (r.broadcastStatus = "live" → r.isReadyToStart = false) := by
  unfold checkStreamStatus at h
  split at h
  · exact absurd h (by simp)
  · split at h
    · exact absurd h (by simp)
    · split at h
      · exact absurd h (by simp)
      · injection h with h'
        subst h'
        constructor
        · simp [Bool.and_eq_true, Bool.or_eq_true, beq_iff_eq]
        · intro hlive
          simp only [CheckStatusResponse.isReadyToStart]
          simp only [CheckStatusResponse.broadcastStatus] at hlive
          simp [hlive]

/-- C10 witness: a concrete successful status request with lifecycle
`testing` and stream `active`, on which the equivalence is evaluated. -/
theorem checkStreamStatus_isReady_iff_witness :
    ((CheckStatusResponse.mk "testing" "active" "good" true).isReadyToStart = true ↔
      ((CheckStatusResponse.mk "testing" "active" "good" true).streamStatus = "active" ∧
        ((CheckStatusResponse.mk "testing" "active" "good" true).broadcastStatus = "testing" ∨
         (CheckStatusResponse.mk "testing" "active" "good" true).broadcastStatus = "ready"))) ∧
    ((CheckStatusResponse.mk "testing" "active" "good" true).broadcastStatus = "live" →
      (CheckStatusResponse.mk "testing" "active" "good" true).isReadyToStart = false) :=
  checkStreamStatus_isReady_iff
    ⟨true, [⟨"testing", some "s1"⟩], fun _ => [⟨"active", "good"⟩]⟩
    (CheckStatusResponse.mk "testing" "active" "good" true) rfl

/-! ## `/start-stream` — the live-transition state machine (part_001 lines 550-690)

The route declares `MAX_RETRIES = 3`, `DELAY_BETWEEN_RETRIES = 5000`, a poller
`checkStreamHealth` and a recursive `attemptTransition(retryCount)`.  The
remote platform is modelled by an environment giving, for each attempt number
`i` (the source's `retryCount`), the outcome of the `checkStreamHealth` poll
and of the two `liveBroadcasts.transition` calls.  The recursion is carried by
`retriesLeft = MAX_RETRIES - retryCount`, so the source's guard
`retryCount < MAX_RETRIES` is `retriesLeft > 0`. -/

/-- part_001 line 552. -/
def MAX_RETRIES : Nat := 3

/-- part_001 line 553 (milliseconds). -/
def DELAY_BETWEEN_RETRIES : Nat := 5000

/-- The snapshot assembled by `checkStreamHealth` (part_001 lines 598-602):
`healthStatus` is `stream.status.healthStatus?.status || null`, hence an
`Option`. -/
structure HealthSnapshot where
  broadcastStatus : String
  streamStatus : String
  healthStatus : Option String
deriving DecidableEq

/-- The objects returned by `attemptTransition` on its success paths. -/
structure TransitionResult where
  success : Bool
  message : String
  status : String
deriving DecidableEq

/-- Remote-platform requests and waits issued by one `/start-stream`
invocation, in order. -/
inductive Ev where
  | checkHealth
  | transitionTo (target : String)
  | sleep (ms : Nat)
deriving DecidableEq

/-- Outcomes of the awaited platform calls, indexed by the attempt number
(the source's `retryCount`): the `checkStreamHealth` poll, the transition to
`testing`, and the transition to `live` (returning the resulting
`lifeCycleStatus`). -/
structure StartStreamEnv where
  health : Nat → Except JsError HealthSnapshot
  testingResult : Nat → Except JsError Unit
  liveResult : Nat → Except JsError String

/-- Template stringification of the nullable health status, as in
`Current health: ${health.healthStatus}`. -/
def healthText : Option String → String
  | some s => s
  | none => "null"

/-- One body of `attemptTransition` (part_001 lines 606-655) up to and
including its inner `try`: the poll, the three gate checks, and the transition
attempts of attempt number `i`.  The boolean is true when an error was thrown
inside the inner `try` (and is therefore subject to the retry `catch`);
the gate-check throws happen before the inner `try` and are not retried. -/
def attemptBody (env : StartStreamEnv) (i : Nat) :
    Except JsError TransitionResult × List Ev × Bool :=
  match env.health i with
  | .error e => (.error e, [.checkHealth], false)
  | .ok h =>
    if h.broadcastStatus == "live" then
      (.ok ⟨true, "Broadcast is already live", h.broadcastStatus⟩, [.checkHealth], false)
    else if !(h.streamStatus == "active") then
      (.error (.error ("Stream is not active. Current status: " ++ h.streamStatus)),
       [.checkHealth], false)
    else if !(h.healthStatus == some "good") then
      (.error (.error ("Stream health is not good. Current health: " ++
        healthText h.healthStatus)), [.checkHealth], false)
    else
      if !(h.broadcastStatus == "testing") then
        match env.testingResult i with
        | .error e => (.error e, [.checkHealth, .transitionTo "testing"], true)
        | .ok _ =>
          match env.liveResult i with
          | .error e =>
            (.error e,
             [.checkHealth, .transitionTo "testing", .sleep 3000, .transitionTo "live"], true)
          | .ok lcs =>
            (.ok ⟨true, "Stream started successfully", lcs⟩,
             [.checkHealth, .transitionTo "testing", .sleep 3000, .transitionTo "live"], true)
      else
        match env.liveResult i with
        | .error e => (.error e, [.checkHealth, .transitionTo "live"], true)
        | .ok lcs =>
          (.ok ⟨true, "Stream started successfully", lcs⟩,
           [.checkHealth, .transitionTo "live"], true)

/-- `attemptTransition` (part_001 lines 606-666).  `retriesLeft` is
`MAX_RETRIES - retryCount` and `i` is `retryCount`; an inner-`try` error with
`retryCount < MAX_RETRIES` sleeps `DELAY_BETWEEN_RETRIES` and re-runs the
whole procedure from the poll. -/
def attemptTransition (env : StartStreamEnv) : Nat → Nat →
    Except JsError TransitionResult × List Ev
  | 0, i =>
    let out := attemptBody env i
    (out.1, out.2.1)
  | r + 1, i =>
    match attemptBody env i with
    | (.error _, evs, true) =>
      let rest := attemptTransition env r (i + 1)
      (rest.1, evs ++ Ev.sleep DELAY_BETWEEN_RETRIES :: rest.2)
    | (res, evs, _) => (res, evs)

/-- The top-level call `attemptTransition()` of the route (part_001 line 669):
retry count 0, i.e. `MAX_RETRIES` retries left. -/
def bringLive (env : StartStreamEnv) : Except JsError TransitionResult × List Ev :=
  attemptTransition env MAX_RETRIES 0

/-- Number of `checkStreamHealth` polls in a trace — one per attempt of
`attemptTransition`. -/
def attemptsMade (evs : List Ev) : Nat :=
  (evs.filter fun e => match e with | .checkHealth => true | _ => false).length

/-- Responses of the `/start-stream` route. -/
inductive StartStreamResponse where
  | academyNotFound
  | okResp (r : TransitionResult)
  | failWithSnapshot (details currentStatus streamStatus : String)
      (healthStatus : Option String)
  | failNoSnapshot (details : String)
deriving DecidableEq

/-- The catch block of `/start-stream` (part_001 lines 671-689) evaluates
`checkStreamHealth`, but that name is bound by a `const` inside the `try`
block (line 572) and `const` bindings are block-scoped, so it is not in scope
in the `catch` block: the lookup throws a `ReferenceError`, which the inner
`catch (statusError)` turns into the 500 response without a snapshot. -/
def catchBlockFinalHealth : Except JsError HealthSnapshot :=
  .error (.referenceError "checkStreamHealth is not defined")

/-- The `/start-stream` handler (part_001 lines 550-690), given whether the
academy lookup succeeded. -/
def startStream (env : StartStreamEnv) (academyFound : Bool) : StartStreamResponse :=
  if !academyFound then .academyNotFound
  else
    match (bringLive env).1 with
    | .ok r => .okResp r
    | .error e =>
      match catchBlockFinalHealth with
      | .ok h => .failWithSnapshot e.message h.broadcastStatus h.streamStatus h.healthStatus
      | .error _ => .failNoSnapshot e.message

theorem attemptsMade_append (l1 l2 : List Ev) :
    attemptsMade (l1 ++ l2) = attemptsMade l1 + attemptsMade l2 := by
  simp [attemptsMade, List.filter_append]

theorem attemptsMade_sleep_cons (n : Nat) (l : List Ev) :
    attemptsMade (Ev.sleep n :: l) = attemptsMade l := by
  simp [attemptsMade]

/-- One attempt of `attemptTransition` in which the three gate checks pass
(broadcast not yet `live`, stream `active`, health `good`) and every
transition actually attempted fails: either the broadcast is not in `testing`
and the `testing` transition fails, or the `testing` transition succeeds and
the `live` transition fails, or the broadcast is already in `testing` and the
`live` transition fails.  In every such case the attempt's body ends in the
inner `try` with the error `er` (so it is retried), and it performs exactly
one poll. -/
theorem attemptBody_transition_failure (env : StartStreamEnv) (i : Nat)
    (snap : HealthSnapshot) (er : JsError)
    (hh : env.health i = .ok snap)
    (hnotlive : snap.broadcastStatus ≠ "live")
    (hactive : snap.streamStatus = "active")
    (hgood : snap.healthStatus = some "good")
    (hfailNotTesting : snap.broadcastStatus ≠ "testing" →
      env.testingResult i = .error er ∨
      (env.testingResult i = .ok () ∧ env.liveResult i = .error er))
    (hfailTesting : snap.broadcastStatus = "testing" → env.liveResult i = .error er) :
    ∃ evs, attemptBody env i = (.error er, evs, true) ∧ attemptsMade evs = 1 := by
  have h1 : (snap.broadcastStatus == "live") = false := by
    simp only [beq_eq_false_iff_ne, ne_eq]
    exact hnotlive
  have h2 : (snap.streamStatus == "active") = true := by
    simp [hactive]
  have h3 : (snap.healthStatus == some "good") = true := by
    simp [hgood]
  by_cases htest : snap.broadcastStatus = "testing"
  · have h4 : (snap.broadcastStatus == "testing") = true := by
      simp [htest]
    have hl := hfailTesting htest
    refine ⟨[.checkHealth, .transitionTo "live"], ?_, rfl⟩
    unfold attemptBody
    rw [hh]
    simp [h1, h2, h3, h4, hl]
  · have h4 : (snap.broadcastStatus == "testing") = false := by
      simp only [beq_eq_false_iff_ne, ne_eq]
      exact htest
    rcases hfailNotTesting htest with he | ⟨hok, hl⟩
    · refine ⟨[.checkHealth, .transitionTo "testing"], ?_, rfl⟩
      unfold attemptBody
      rw [hh]
      simp [h1, h2, h3, h4, he]
    · refine ⟨[.checkHealth, .transitionTo "testing", .sleep 3000, .transitionTo "live"],
        ?_, rfl⟩
      unfold attemptBody
      rw [hh]
      simp [h1, h2, h3, h4, hok, hl]

/-- C2: in every `bringLive` invocation in which each attempt passes the gate
checks and every transition it attempts — to `testing` or to `live`, in any
of the three possible per-attempt shapes — fails with error `er i`,
`bringLive` re-runs `attemptTransition` from the polling step (each attempt
body performs exactly one poll), separates consecutive attempts by the fixed
`DELAY_BETWEEN_RETRIES` sleep, performs exactly `MAX_RETRIES + 1` total
attempts, and surfaces the last attempt's failure. -/
theorem bringLive_retry_bound (env : StartStreamEnv)
    (snap : Nat → HealthSnapshot) (er : Nat → JsError)
    (hh : ∀ i, env.health i = .ok (snap i))
    (hnotlive : ∀ i, (snap i).broadcastStatus ≠ "live")
    (hactive : ∀ i, (snap i).streamStatus = "active")
    (hgood : ∀ i, (snap i).healthStatus = some "good")
    (hfail : ∀ i,
      ((snap i).broadcastStatus ≠ "testing" →
        env.testingResult i = .error (er i) ∨
        (env.testingResult i = .ok () ∧ env.liveResult i = .error (er i))) ∧
      ((snap i).broadcastStatus = "testing" → env.liveResult i = .error (er i))) :
    (bringLive env).1 = .error (er MAX_RETRIES) ∧
    attemptsMade (bringLive env).2 = MAX_RETRIES + 1 ∧
    (∀ i, attemptsMade (attemptBody env i).2.1 = 1) ∧
    (bringLive env).2 =
      (attemptBody env 0).2.1 ++ Ev.sleep DELAY_BETWEEN_RETRIES ::
        ((attemptBody env 1).2.1 ++ Ev.sleep DELAY_BETWEEN_RETRIES ::
          ((attemptBody env 2).2.1 ++ Ev.sleep DELAY_BETWEEN_RETRIES ::
            (attemptBody env 3).2.1)) := by
  have hbody : ∀ i, ∃ evs, attemptBody env i = (.error (er i), evs, true) ∧
      attemptsMade evs = 1 := fun i =>
    attemptBody_transition_failure env i (snap i) (er i) (hh i) (hnotlive i)
      (hactive i) (hgood i) (hfail i).1 (hfail i).2
  obtain ⟨evs0, hb0, ha0⟩ := hbody 0
  obtain ⟨evs1, hb1, ha1⟩ := hbody 1
  obtain ⟨evs2, hb2, ha2⟩ := hbody 2
  obtain ⟨evs3, hb3, ha3⟩ := hbody 3
  have hrun : bringLive env =
      (.error (er 3),
       evs0 ++ Ev.sleep DELAY_BETWEEN_RETRIES ::
         (evs1 ++ Ev.sleep DELAY_BETWEEN_RETRIES ::
           (evs2 ++ Ev.sleep DELAY_BETWEEN_RETRIES :: evs3))) := by
    show attemptTransition env 3 0 = _
    rw [attemptTransition, hb0]
    rw [attemptTransition, hb1]
    rw [attemptTransition, hb2]
    rw [attemptTransition, hb3]
  refine ⟨?_, ?_, ?_, ?_⟩
  · rw [hrun]
    rfl
  · rw [hrun]
    show attemptsMade (evs0 ++ Ev.sleep DELAY_BETWEEN_RETRIES ::
      (evs1 ++ Ev.sleep DELAY_BETWEEN_RETRIES ::
        (evs2 ++ Ev.sleep DELAY_BETWEEN_RETRIES :: evs3))) = MAX_RETRIES + 1
    rw [attemptsMade_append, attemptsMade_sleep_cons, attemptsMade_append,
      attemptsMade_sleep_cons, attemptsMade_append, attemptsMade_sleep_cons,
      ha0, ha1, ha2, ha3]
    rfl
  · intro i
    obtain ⟨evsi, hbi, hai⟩ := hbody i
    rw [hbi]
    exact hai
  · rw [hrun, hb0, hb1, hb2, hb3]

/-- C2 witness: a broadcast already in `testing` whose `live` transition
fails with a transient error on every attempt. -/
theorem bringLive_retry_bound_witness :
    (bringLive ⟨fun _ => .ok ⟨"testing", "active", some "good"⟩,
                fun _ => .ok (),
                fun _ => .error (.error "transient")⟩).1 =
      .error (.error "transient") ∧
    attemptsMade (bringLive ⟨fun _ => .ok ⟨"testing", "active", some "good"⟩,
                fun _ => .ok (),
                fun _ => .error (.error "transient")⟩).2 = MAX_RETRIES + 1 ∧
    (bringLive ⟨fun _ => .ok ⟨"testing", "active", some "good"⟩,
                fun _ => .ok (),
                fun _ => .error (.error "transient")⟩).2 =
      (attemptBody ⟨fun _ => .ok ⟨"testing", "active", some "good"⟩,
                fun _ => .ok (),
                fun _ => .error (.error "transient")⟩ 0).2.1 ++
        Ev.sleep DELAY_BETWEEN_RETRIES ::
        ((attemptBody ⟨fun _ => .ok ⟨"testing", "active", some "good"⟩,
                fun _ => .ok (),
                fun _ => .error (.error "transient")⟩ 1).2.1 ++
          Ev.sleep DELAY_BETWEEN_RETRIES ::
          ((attemptBody ⟨fun _ => .ok ⟨"testing", "active", some "good"⟩,
                fun _ => .ok (),
                fun _ => .error (.error "transient")⟩ 2).2.1 ++
            Ev.sleep DELAY_BETWEEN_RETRIES ::
            (attemptBody ⟨fun _ => .ok ⟨"testing", "active", some "good"⟩,
                fun _ => .ok (),
                fun _ => .error (.error "transient")⟩ 3).2.1)) := by
  have h := bringLive_retry_bound
    ⟨fun _ => .ok ⟨"testing", "active", some "good"⟩,
     fun _ => .ok (),
     fun _ => .error (.error "transient")⟩
    (fun _ => ⟨"testing", "active", some "good"⟩)
    (fun _ => .error "transient")
    (fun _ => rfl)
    (fun _ => (by decide : ("testing" : String) ≠ "live"))
    (fun _ => rfl)
    (fun _ => rfl)
    (fun _ => ⟨fun hne => absurd rfl hne, fun _ => rfl⟩)
  exact ⟨h.1, h.2.1, h.2.2.2⟩

/-- Whether an `attemptTransition` outcome is a success value. -/
def transitionSucceeded : Except JsError TransitionResult → Bool
  | .ok _ => true
  | .error _ => false

/-- C4: when the first poll reports a stream status other than `active` on a
broadcast that is not already `live`, `bringLive` fails and the trace contains
the single poll only — no transition request (to `testing` or `live`) is ever
issued to the remote platform. -/
theorem bringLive_fast_fail_no_transition (env : StartStreamEnv)
    (s : HealthSnapshot) (h0 : env.health 0 = .ok s)
    (hlive : s.broadcastStatus ≠ "live") (hactive : s.streamStatus ≠ "active") :
    transitionSucceeded (bringLive env).1 = false ∧
    (bringLive env).2 = [Ev.checkHealth] := by
  have h1 : (s.broadcastStatus == "live") = false := by
    simp only [beq_eq_false_iff_ne, ne_eq]
    exact hlive
  have h2 : (s.streamStatus == "active") = false := by
    simp only [beq_eq_false_iff_ne, ne_eq]
    exact hactive
  have hbody : attemptBody env 0 =
      (.error (.error ("Stream is not active. Current status: " ++ s.streamStatus)),
       [.checkHealth], false) := by
    unfold attemptBody
    rw [h0]
    simp [h1, h2]
  have hrun : bringLive env =
      (.error (.error ("Stream is not active. Current status: " ++ s.streamStatus)),
       [.checkHealth]) := by
    show attemptTransition env 3 0 = _
    rw [attemptTransition, hbody]
  rw [hrun]
  exact ⟨rfl, rfl⟩

/-- C4 witness: a concrete environment whose stream is `inactive` while the
broadcast lifecycle is `ready`. -/
theorem bringLive_fast_fail_no_transition_witness :
    transitionSucceeded
      (bringLive ⟨fun _ => .ok ⟨"ready", "inactive", some "good"⟩,
                  fun _ => .ok (), fun _ => .ok "live"⟩).1 = false ∧
    (bringLive ⟨fun _ => .ok ⟨"ready", "inactive", some "good"⟩,
                fun _ => .ok (), fun _ => .ok "live"⟩).2 = [Ev.checkHealth] :=
  bringLive_fast_fail_no_transition _ ⟨"ready", "inactive", some "good"⟩
    rfl (by decide) (by decide)

/-- C3 (code bug): every failure of `/start-stream` — whether a non-retryable
fast-fail (stream not `active`) or an exhaustion of all retries — responds
without the diagnostic snapshot: the catch block's call to `checkStreamHealth`
names a `const` that is block-scoped to the `try` block, so the catch always
lands in its inner `catch (statusError)` and returns the 500 body with
`additionalError: "Could not fetch final status"` instead of the last observed
broadcast/stream/health statuses. -/
theorem startStream_failure_has_no_snapshot :
    startStream ⟨fun _ => .ok ⟨"ready", "inactive", some "good"⟩,
                 fun _ => .ok (), fun _ => .ok "live"⟩ true =
      .failNoSnapshot "Stream is not active. Current status: inactive" ∧
    startStream ⟨fun _ => .ok ⟨"ready", "active", some "good"⟩,
                 fun _ => .error (.error "transient"),
                 fun _ => .error (.error "transient")⟩ true =
      .failNoSnapshot "transient" := by
  constructor <;> rfl

/-! ## `/go-live-now` — the dual-channel orchestrator

final.js lines 385-430 run `createBroadcastAndBind` for the academy channel
and then for the company channel, sequentially, inside a single `try`;
part_000 lines 190-248 wrap only the `ourChannel` run in its own `try` while
a `customerChannel` failure reaches the shared `catch`.  Each channel
sub-flow's outcome is abstracted as an `Except` value. -/

/-- The two channel sub-flows of final.js's orchestrator. -/
inductive Chan where
  | academy
  | company
deriving DecidableEq

/-- The composite descriptor returned by final.js `createBroadcastAndBind`
(lines 376-381), restricted to its identifying fields. -/
structure BindResult where
  academyId : String
  groundId : String
  broadcastId : String
  streamId : String
deriving DecidableEq

/-- Environment of one final.js `/go-live-now` request: the academy
authentication check and the outcomes of the awaited sub-flows. -/
structure GoLiveEnv where
  academyAuthOk : Bool
  academyRun : Except JsError BindResult
  companyAuth : Except JsError Unit
  companyRun : Except JsError BindResult

/-- Responses of final.js `/go-live-now`. -/
inductive GoLiveResp where
  | notAuth
  | okResp (academyStream companyStream : BindResult)
  | fail (message : String)
deriving DecidableEq

/-- The final.js `/go-live-now` handler (lines 385-430), also returning the
list of channels whose `createBroadcastAndBind` was actually started.  Both
awaits sit in one `try`, so an academy-side throw reaches the `catch` before
the company sub-flow is started. -/
def goLiveFinal (env : GoLiveEnv) : GoLiveResp × List Chan :=
  if !env.academyAuthOk then (.notAuth, [])
  else
    match env.academyRun with
    | .error e => (.fail e.message, [.academy])
    | .ok a =>
      match env.companyAuth with
      | .error e => (.fail e.message, [.academy])
      | .ok _ =>
        match env.companyRun with
        | .error e => (.fail e.message, [.academy, .company])
        | .ok c => (.okResp a c, [.academy, .company])

/-- The per-channel result objects of part_000's
`createBroadcastAndStream`. -/
structure ChannelStreamResult where
  channel : String
  broadcastId : String
  streamId : String
deriving DecidableEq

/-- Environment of one part_000 `/go-live-now` request on its
`authCompleted` path (lines 190-248). -/
structure GoLivePart0Env where
  customerTokens : Bool
  ourTokens : Bool
  ourTokensValid : Bool
  ourRun : Except JsError ChannelStreamResult
  customerRun : Except JsError ChannelStreamResult

/-- Responses of part_000 `/go-live-now` on the `authCompleted` path. -/
inductive GoLivePart0Resp where
  | needCustomerAuth
  | okResp (results : List ChannelStreamResult) (message : String)
  | fail (message : String)
deriving DecidableEq

/-- The part_000 `/go-live-now` handler on its `authCompleted` path
(lines 190-248): an `ourChannel` failure is swallowed by its inner `try`
(the run is dropped from `results`), while a `customerChannel` failure
reaches the shared `catch` and produces a total-failure body that never
mentions an earlier `ourChannel` success. -/
def goLivePart0 (env : GoLivePart0Env) : GoLivePart0Resp :=
  if !env.customerTokens then .needCustomerAuth
  else
    let ourResults : List ChannelStreamResult :=
      if env.ourTokens && env.ourTokensValid then
        match env.ourRun with
        | .ok r => [r]
        | .error _ => []
      else []
    match env.customerRun with
    | .error _ => .fail "Failed to create stream on customer channel. Please try again."
    | .ok c =>
      let results := ourResults ++ [c]
      .okResp results
        ("Streams created successfully" ++
         (if results.length > 1 then " on both channels" else " on customer channel"))

/-- C1 (code bug): with exactly one failing channel sub-flow, the orchestrator
neither attempts both channels nor reports one success and one failure.  In
final.js, an academy failure aborts before the company channel is attempted
and the response is a total failure; in part_000, a customer-channel failure
after a successful `ourChannel` run likewise produces a total-failure body
that reports no per-channel success. -/
theorem goLive_partial_failure_divergence :
    goLiveFinal ⟨true, .error (.error "quota exceeded"), .ok (),
                 .ok ⟨"acad1", "g1", "bc2", "st2"⟩⟩ =
      (.fail "quota exceeded", [Chan.academy]) ∧
    goLivePart0 ⟨true, true, true, .ok ⟨"ourChannel", "bc1", "st1"⟩,
                 .error (.error "network error")⟩ =
      .fail "Failed to create stream on customer channel. Please try again." := by
  constructor <;> rfl

/-! ## `/end-stream` — the broadcast terminator

final.js lines 432-486 and part_001 lines 433-491 search each channel's
active broadcasts and transition the title match to `complete` via
`Promise.all` under one shared `try/catch`; part_000 lines 573-667 loop over
the channels with a per-channel `try/catch` and per-channel status entries. -/

/-- One item of a `liveBroadcasts.list(broadcastStatus: "active")` response,
restricted to the fields the terminators read. -/
structure BroadcastListItem where
  id : String
  title : String
deriving DecidableEq

/-- The broadcast title created by final.js `createBroadcastAndBind`
(line 348): `snippet.title` is the request `title` on both channels. -/
def createdBroadcastTitle (title : String) (_isCompanyChannel : Bool) : String :=
  title

/-- The title final.js's `/end-stream` `endBroadcast` searches for on a
channel (lines 455-459). -/
def endTargetTitle (academyName title : String) (isCompanyChannel : Bool) : String :=
  if isCompanyChannel then academyName ++ " - " ++ title else title

/-- final.js `endBroadcast` (lines 447-471): list the channel's active
broadcasts, find the title match, and transition it to `complete`; a missing
match returns `false`.  `listOutcome` and `transitionOutcome` are the awaited
call outcomes. -/
def endBroadcastFinal (academyName title : String) (isCompanyChannel : Bool)
    (listOutcome : Except JsError (List BroadcastListItem))
    (transitionOutcome : Except JsError Unit) : Except JsError Bool :=
  match listOutcome with
  | .error e => .error e
  | .ok items =>
    match items.find? (fun b => finalTitleMatches academyName title isCompanyChannel b.title) with
    | some _ =>
      match transitionOutcome with
      | .error e => .error e
      | .ok _ => .ok true
    | none => .ok false

/-- Responses of final.js `/end-stream`. -/
inductive EndStreamResp where
  | notAuth
  | okResp (academyStreamEnded companyStreamEnded : Bool)
  | errResp (message : String)
deriving DecidableEq

/-- The final.js `/end-stream` handler (lines 432-486): both `endBroadcast`
calls are started by `Promise.all`, but a rejection of either lands in the
shared `catch`, which answers with a bare error body.  When both reject, the
academy rejection is taken as the reported one. -/
def endStreamFinal (academyAuthOk : Bool) (companyAuth : Except JsError Unit)
    (academyEnd companyEnd : Except JsError Bool) : EndStreamResp :=
  if !academyAuthOk then .notAuth
  else
    match companyAuth with
    | .error e => .errResp e.message
    | .ok _ =>
      match academyEnd, companyEnd with
      | .ok a, .ok c => .okResp a c
      | .error e, _ => .errResp e.message
      | .ok _, .error e => .errResp e.message

/-- C6 (code bug): after a final.js go-live with title `"U15 vs U17"` has
created a broadcast titled `"U15 vs U17"` on each channel (line 348 uses the
request title on both), a final.js end-stream with the same title finds and
completes the academy broadcast but searches the company channel for
`"Acme - U15 vs U17"`, finds nothing, and reports
`companyStreamEnded: false`. -/
theorem goLive_endStream_roundTrip_mismatch :
    endStreamFinal true (.ok ())
      (endBroadcastFinal "Acme" "U15 vs U17" false
        (.ok [⟨"bcA", createdBroadcastTitle "U15 vs U17" false⟩]) (.ok ()))
      (endBroadcastFinal "Acme" "U15 vs U17" true
        (.ok [⟨"bcC", createdBroadcastTitle "U15 vs U17" true⟩]) (.ok ())) =
      .okResp true false := by
  rfl

/-- C8 counterexample: in final.js's `/end-stream`, when the academy channel's
`endBroadcast` rejects with a network error while the company channel's
search-and-transition succeeds (here returning `true`), the response is the
bare error body — the company channel's outcome is not reported. -/
theorem endStreamFinal_error_hides_sibling :
    endStreamFinal true (.ok ()) (.error (.error "network error")) (.ok true) =
      .errResp "network error" := by
  rfl

/-- Per-channel status of part_000's `/end-stream` results. -/
inductive ChanStatus where
  | noTokens
  | invalidTokens
  | success
  | notFound
  | errorWith (msg : String)
deriving DecidableEq

/-- One entry of part_000's `/end-stream` `results` array. -/
structure ChanReport where
  channelName : String
  status : ChanStatus
deriving DecidableEq

/-- The state and awaited call outcomes of one channel in part_000's
`/end-stream` loop. -/
structure ChanState where
  name : String
  hasTokens : Bool
  tokensValid : Bool
  listOutcome : Except JsError (List BroadcastListItem)
  transitionOutcome : Except JsError Unit

/-- The matching predicate of part_000's `/end-stream` (lines 621-624):
case-insensitive exact comparison. -/
def part0TitleMatches (broadcastTitle target : String) : Bool :=
  broadcastTitle.toLower == target.toLower

/-- The body of part_000's per-channel loop (lines 585-658): token checks,
then a per-channel `try` around the list/transition calls whose `catch`
records an error status for that channel only. -/
def processChannel (title : String) (c : ChanState) : ChanReport :=
  if !c.hasTokens then ⟨c.name, .noTokens⟩
  else if !c.tokensValid then ⟨c.name, .invalidTokens⟩
  else
    match c.listOutcome with
    | .error e => ⟨c.name, .errorWith e.message⟩
    | .ok items =>
      match items.find? (fun b => part0TitleMatches b.title title) with
      | some _ =>
        match c.transitionOutcome with
        | .error e => ⟨c.name, .errorWith e.message⟩
        | .ok _ => ⟨c.name, .success⟩
      | none => ⟨c.name, .notFound⟩

/-- part_000's `/end-stream` handler (lines 573-667): the loop over
`CHANNELS`, producing one result entry per channel. -/
def endStreamPart0 (title : String) (channels : List ChanState) : List ChanReport :=
  channels.map (processChannel title)

/-- C8 (amended): in part_000's `/end-stream`, each channel's
search-and-transition is attempted and reported independently of the other
channel's outcome, and a missing match is reported as the normal `not_found`
status, never raised; in the final.js/part_001 variant a missing match is
likewise returned as a normal `false`, but a thrown per-channel error yields
a single error response that omits the sibling's outcome. -/
theorem endStream_channel_independence (title : String) :
    (∀ c1 c2 : ChanState,
      endStreamPart0 title [c1, c2] = [processChannel title c1, processChannel title c2]) ∧
    (∀ (c : ChanState) (items : List BroadcastListItem),
      c.hasTokens = true → c.tokensValid = true → c.listOutcome = .ok items →
      items.find? (fun b => part0TitleMatches b.title title) = none →
      processChannel title c = ⟨c.name, ChanStatus.notFound⟩) ∧
    (∀ (academyName : String) (isC : Bool) (items : List BroadcastListItem)
        (tr : Except JsError Unit),
      items.find? (fun b => finalTitleMatches academyName title isC b.title) = none →
      endBroadcastFinal academyName title isC (.ok items) tr = .ok false) := by
  refine ⟨fun c1 c2 => rfl, ?_, ?_⟩
  · intro c items htok hval hlist hfind
    unfold processChannel
    rw [htok, hval, hlist]
    simp [hfind]
  · intro academyName isC items tr hfind
    unfold endBroadcastFinal
    simp [hfind]

/-- C8 witness: a concrete channel with valid tokens and no matching active
broadcast is reported `not_found`, and a concrete final.js channel with no
match returns `false`. -/
theorem endStream_channel_independence_witness :
    processChannel "U15 vs U17"
      ⟨"ourChannel", true, true, .ok [], .ok ()⟩ =
      ⟨"ourChannel", ChanStatus.notFound⟩ ∧
    endBroadcastFinal "Acme" "U15 vs U17" false (.ok [⟨"bc9", "Another title"⟩]) (.ok ()) =
      .ok false :=
  ⟨(endStream_channel_independence "U15 vs U17").2.1
      ⟨"ourChannel", true, true, .ok [], .ok ()⟩ [] rfl rfl rfl rfl,
   (endStream_channel_independence "U15 vs U17").2.2
      "Acme" false [⟨"bc9", "Another title"⟩] (.ok ()) rfl⟩

/-! ## The Stream Resolver — final.js `getExistingStream` (lines 233-322)

The remote platform's live streams are modelled as an explicit state; the
persistence layer is the in-memory academy record together with an explicit
list of issued database writes (`Academy.findOneAndUpdate` with a positional
`grounds.$` update).  The two awaited remote calls that can reject without
aborting the procedure are modelled by the flags `fetchFails` (the
`liveStreams.list` call of the remembered id throws — caught, line 274-276)
and `insertFails` (the `liveStreams.insert` call throws — propagated). -/

/-- One ground (venue) of an academy document (final.js lines 25-33). -/
structure Ground where
  groundId : String
  title : String
  streamKey : String
  academyStreamId : Option String
  companyStreamId : Option String
deriving DecidableEq

/-- An academy document, restricted to the fields the resolver reads. -/
structure AcademyRec where
  academyId : String
  name : String
  grounds : List Ground
deriving DecidableEq

/-- A remote live-stream resource, with the fields the resolver reads back. -/
structure StreamRec where
  id : String
  title : String
  streamName : String
  ingestionAddress : String
  resolution : String
  frameRate : String
  ingestionType : String
deriving DecidableEq

/-- The remote platform's stream store; `nextStreamNum` feeds the generator
of fresh stream ids. -/
structure Platform where
  streams : List StreamRec
  nextStreamNum : Nat
deriving DecidableEq

/-- `youtube.liveStreams.list({id: sid})`: the items whose id matches. -/
def liveStreamsListById (p : Platform) (sid : String) : List StreamRec :=
  p.streams.filter fun s => s.id == sid

/-- `youtube.liveStreams.insert` (final.js lines 279-297): creates a fresh
remote stream with the requested snippet title and ingestion stream name and
the fixed cdn settings. -/
def liveStreamsInsert (p : Platform) (snippetTitle ingestionName : String) :
    StreamRec × Platform :=
  let s : StreamRec :=
    { id := "yt-stream-" ++ toString p.nextStreamNum
      title := snippetTitle
      streamName := ingestionName
      ingestionAddress := "rtmp://a.rtmp.youtube.com/live2"
      resolution := "1080p"
      frameRate := "30fps"
      ingestionType := "rtmp" }
  (s, { streams := p.streams ++ [s], nextStreamNum := p.nextStreamNum + 1 })

/-- The `streamDetails` sub-object of the resolver's return value. -/
structure StreamDetails where
  resolution : String
  frameRate : String
  ingestionType : String
deriving DecidableEq

/-- The descriptor returned by `getExistingStream`
(final.js lines 262-272 and 312-321). -/
structure StreamResult where
  streamId : String
  streamKey : String
  ingestionAddress : String
  streamDetails : StreamDetails
deriving DecidableEq

/-- Build the returned descriptor from a remote stream resource. -/
def streamResultOf (s : StreamRec) : StreamResult :=
  ⟨s.id, s.streamName, s.ingestionAddress, ⟨s.resolution, s.frameRate, s.ingestionType⟩⟩

/-- One `Academy.findOneAndUpdate` write of `getExistingStream`
(final.js lines 299-310): it targets one ground of one academy and sets one
named field to a value. -/
structure DbWrite where
  academyId : String
  groundId : String
  field : String
  value : String
deriving DecidableEq

/-- The role-specific field name (final.js line 299). -/
def roleField (isCompanyChannel : Bool) : String :=
  if isCompanyChannel then "companyStreamId" else "academyStreamId"

/-- The remembered stream id of a ground for a channel role
(final.js lines 246-248). -/
def groundStreamId (g : Ground) (isCompanyChannel : Bool) : Option String :=
  if isCompanyChannel then g.companyStreamId else g.academyStreamId

/-- JavaScript `ground.title.replace(/\s+/g, "")` (final.js line 250). -/
def removeAllWhitespace (s : String) : String :=
  ⟨s.data.filter fun c => !isJsWhitespace c⟩

/-- The ingestion stream name requested on creation (final.js lines 249-251). -/
def newStreamIngestionName (a : AcademyRec) (g : Ground) (isCompanyChannel : Bool) : String :=
  if isCompanyChannel then a.name ++ ":" ++ removeAllWhitespace g.title else g.streamKey

/-- The snippet title requested on creation (final.js lines 283-287). -/
def newStreamSnippetTitle (a : AcademyRec) (g : Ground) (isCompanyChannel : Bool) : String :=
  if isCompanyChannel then a.name ++ " - " ++ g.title else g.title ++ " - Stream"

/-- Set one named stream-id field of a ground, as the `$set` of the positional
update does; an unknown field name changes nothing. -/
def setGroundField (g : Ground) (field v : String) : Ground :=
  if field == "companyStreamId" then { g with companyStreamId := some v }
  else if field == "academyStreamId" then { g with academyStreamId := some v }
  else g

/-- Mongo's positional `grounds.$` update rewrites only the first array
element matching the query. -/
def updateFirstGround (pred : Ground → Bool) (f : Ground → Ground) :
    List Ground → List Ground
  | [] => []
  | g :: gs => if pred g then f g :: gs else g :: updateFirstGround pred f gs

/-- Apply one `DbWrite` to an academy document. -/
def applyWrite (a : AcademyRec) (w : DbWrite) : AcademyRec :=
  if a.academyId == w.academyId then
    { a with
      grounds := updateFirstGround (fun g => g.groundId == w.groundId)
        (fun g => setGroundField g w.field w.value) a.grounds }
  else a

/-- The full outcome of one `getExistingStream` call: the returned value (or
thrown error), the platform state, the persisted academy document, and the
issued persistence writes. -/
structure ResolveOut where
  res : Except JsError StreamResult
  platform : Platform
  academy : AcademyRec
  writes : List DbWrite

/-- The `if (streamId) { try { ... liveStreams.list ... } catch ... }` block of
`getExistingStream` (final.js lines 253-277): fetch the remembered stream of
the ground for the channel role; `ff` is true when the `liveStreams.list`
call rejects (the rejection is caught and logged).  `none` means the
procedure falls through to stream creation. -/
def fetchRemembered (p : Platform) (g : Ground) (isCompanyChannel ff : Bool) :
    Option StreamRec :=
  match groundStreamId g isCompanyChannel with
  | some sid =>
    if ff then none
    else
      match liveStreamsListById p sid with
      | s :: _ => some s
      | [] => none
  | none => none

/-- `getExistingStream` (final.js lines 233-322).  If the ground remembers a
stream id for the requested role and the `liveStreams.list` fetch succeeds
with at least one item, that stream's descriptor is returned with no writes;
otherwise (absent id, fetch rejection — caught — or empty fetch result) a new
stream is inserted and its id persisted onto the ground's role-specific
field with exactly one write. -/
def getExistingStream (p : Platform) (a : AcademyRec) (groundId : String)
    (isCompanyChannel : Bool) (fetchFails insertFails : Bool) : ResolveOut :=
  match a.grounds.find? (fun g => g.groundId == groundId) with
  | none => ⟨.error (.error "Ground not found"), p, a, []⟩
  | some ground =>
    match fetchRemembered p ground isCompanyChannel fetchFails with
    | some s => ⟨.ok (streamResultOf s), p, a, []⟩
    | none =>
      if insertFails then ⟨.error (.error "liveStreams.insert failed"), p, a, []⟩
      else
        let created := liveStreamsInsert p (newStreamSnippetTitle a ground isCompanyChannel)
          (newStreamIngestionName a ground isCompanyChannel)
        let w : DbWrite := ⟨a.academyId, groundId, roleField isCompanyChannel, created.1.id⟩
        ⟨.ok (streamResultOf created.1), created.2, applyWrite a w, [w]⟩

/-- The stream id carried by a resolver outcome, if any. -/
def resStreamId : Except JsError StreamResult → Option String
  | .ok r => some r.streamId
  | .error _ => none

/-! ### Run lemmas for `getExistingStream` -/

theorem getExistingStream_run_noGround (p : Platform) (a : AcademyRec) (gid : String)
    (c ff insf : Bool)
    (hfind : a.grounds.find? (fun g => g.groundId == gid) = none) :
    getExistingStream p a gid c ff insf = ⟨.error (.error "Ground not found"), p, a, []⟩ := by
  unfold getExistingStream
  rw [hfind]

theorem getExistingStream_run_fetched (p : Platform) (a : AcademyRec) (gid : String)
    (c ff insf : Bool) (g : Ground) (s : StreamRec)
    (hfind : a.grounds.find? (fun x => x.groundId == gid) = some g)
    (hf : fetchRemembered p g c ff = some s) :
    getExistingStream p a gid c ff insf = ⟨.ok (streamResultOf s), p, a, []⟩ := by
  unfold getExistingStream
  rw [hfind]
  dsimp only
  rw [hf]

theorem getExistingStream_run_insertFails (p : Platform) (a : AcademyRec) (gid : String)
    (c ff : Bool) (g : Ground)
    (hfind : a.grounds.find? (fun x => x.groundId == gid) = some g)
    (hf : fetchRemembered p g c ff = none) :
    getExistingStream p a gid c ff true = ⟨.error (.error "liveStreams.insert failed"), p, a, []⟩ := by
  unfold getExistingStream
  rw [hfind]
  dsimp only
  rw [hf]
  rfl

theorem getExistingStream_run_create (p : Platform) (a : AcademyRec) (gid : String)
    (c ff : Bool) (g : Ground)
    (hfind : a.grounds.find? (fun x => x.groundId == gid) = some g)
    (hf : fetchRemembered p g c ff = none) :
    getExistingStream p a gid c ff false =
      ⟨.ok (streamResultOf
          (liveStreamsInsert p (newStreamSnippetTitle a g c) (newStreamIngestionName a g c)).1),
       (liveStreamsInsert p (newStreamSnippetTitle a g c) (newStreamIngestionName a g c)).2,
       applyWrite a ⟨a.academyId, gid, roleField c,
          (liveStreamsInsert p (newStreamSnippetTitle a g c) (newStreamIngestionName a g c)).1.id⟩,
       [⟨a.academyId, gid, roleField c,
          (liveStreamsInsert p (newStreamSnippetTitle a g c) (newStreamIngestionName a g c)).1.id⟩]⟩ := by
  unfold getExistingStream
  rw [hfind]
  dsimp only
  rw [hf]
  rfl

/-! ### Structural helper lemmas -/

theorem setGroundField_groundId (g : Ground) (field v : String) :
    (setGroundField g field v).groundId = g.groundId := by
  unfold setGroundField
  split
  · rfl
  · split <;> rfl

theorem groundStreamId_set_role (g : Ground) (v : String) (c : Bool) :
    groundStreamId (setGroundField g (roleField c) v) c = some v := by
  cases c <;> rfl

theorem find?_updateFirstGround (pred : Ground → Bool) (f : Ground → Ground)
    (gs : List Ground) (g : Ground) (hg : gs.find? pred = some g)
    (hf : pred (f g) = true) :
    (updateFirstGround pred f gs).find? pred = some (f g) := by
  induction gs with
  | nil => simp at hg
  | cons g0 rest ih =>
    by_cases h0 : pred g0 = true
    · rw [List.find?_cons_of_pos _ h0] at hg
      injection hg with hg0
      subst hg0
      unfold updateFirstGround
      rw [if_pos h0]
      exact List.find?_cons_of_pos _ hf
    · rw [List.find?_cons_of_neg _ (by simpa using h0)] at hg
      unfold updateFirstGround
      rw [if_neg h0]
      rw [List.find?_cons_of_neg _ (by simpa using h0)]
      exact ih hg

/-- What may change on one ground across a resolver call for role `c` on
venue `gid`: only the `c`-side stream id of the resolved ground. -/
def groundFrameOk (c : Bool) (gid : String) (g g' : Ground) : Prop :=
  g'.groundId = g.groundId ∧ g'.title = g.title ∧ g'.streamKey = g.streamKey ∧
  (c = true → g'.academyStreamId = g.academyStreamId) ∧
  (c = false → g'.companyStreamId = g.companyStreamId) ∧
  (g.groundId ≠ gid → g' = g)

theorem groundFrameOk_refl (c : Bool) (gid : String) (g : Ground) :
    groundFrameOk c gid g g :=
  ⟨rfl, rfl, rfl, fun _ => rfl, fun _ => rfl, fun _ => rfl⟩

theorem groundFrameOk_set (c : Bool) (gid v : String) (g : Ground)
    (hpred : (g.groundId == gid) = true) :
    groundFrameOk c gid g (setGroundField g (roleField c) v) := by
  have hgid : g.groundId = gid := by simpa using hpred
  cases c
  · refine ⟨rfl, rfl, rfl, ?_, ?_, ?_⟩
    · intro h
      exact absurd h (by decide)
    · intro _
      rfl
    · intro hne
      exact absurd hgid hne
  · refine ⟨rfl, rfl, rfl, ?_, ?_, ?_⟩
    · intro _
      rfl
    · intro h
      exact absurd h (by decide)
    · intro hne
      exact absurd hgid hne

theorem forall2_updateFirstGround (r : Ground → Ground → Prop) (pred : Ground → Bool)
    (f : Ground → Ground) (gs : List Ground)
    (hrefl : ∀ g, r g g) (hf : ∀ g, pred g = true → r g (f g)) :
    List.Forall₂ r gs (updateFirstGround pred f gs) := by
  induction gs with
  | nil => exact List.Forall₂.nil
  | cons g0 rest ih =>
    unfold updateFirstGround
    by_cases h0 : pred g0 = true
    · rw [if_pos h0]
      exact List.Forall₂.cons (hf g0 h0) (List.forall₂_same.mpr fun x _ => hrefl x)
    · rw [if_neg h0]
      exact List.Forall₂.cons (hrefl g0) ih

theorem applyWrite_academyId (a : AcademyRec) (w : DbWrite) :
    (applyWrite a w).academyId = a.academyId := by
  unfold applyWrite
  split <;> rfl

theorem applyWrite_name (a : AcademyRec) (w : DbWrite) :
    (applyWrite a w).name = a.name := by
  unfold applyWrite
  split <;> rfl

theorem applyWrite_self_grounds (a : AcademyRec) (w : DbWrite)
    (h : w.academyId = a.academyId) :
    (applyWrite a w).grounds =
      updateFirstGround (fun g => g.groundId == w.groundId)
        (fun g => setGroundField g w.field w.value) a.grounds := by
  unfold applyWrite
  rw [if_pos (by rw [h]; exact beq_self_eq_true a.academyId)]

theorem fetchRemembered_ff_eq_false (p : Platform) (g : Ground) (c ff : Bool)
    (s : StreamRec) (hf : fetchRemembered p g c ff = some s) : ff = false := by
  cases ff
  · rfl
  · unfold fetchRemembered at hf
    rcases hsid : groundStreamId g c with _ | sid <;> rw [hsid] at hf <;> simp at hf

theorem liveStreamsListById_head (p : Platform) (sid : String) (s : StreamRec)
    (hs : s ∈ p.streams) (hid : s.id = sid) :
    ∃ s' rest, liveStreamsListById p sid = s' :: rest ∧ s'.id = sid := by
  have hmem : s ∈ p.streams.filter fun x => x.id == sid :=
    List.mem_filter.mpr ⟨hs, by simp [hid]⟩
  rcases hl : p.streams.filter (fun x => x.id == sid) with _ | ⟨s', rest⟩
  · rw [hl] at hmem
    simp at hmem
  · refine ⟨s', rest, hl, ?_⟩
    have hmem' : s' ∈ p.streams.filter fun x => x.id == sid := by
      rw [hl]
      exact List.mem_cons_self _ _
    simpa using (List.mem_filter.mp hmem').2

theorem fetchRemembered_of_listed (p : Platform) (g : Ground) (c : Bool)
    (sid : String) (hsid : groundStreamId g c = some sid)
    (s : StreamRec) (hs : s ∈ p.streams) (hid : s.id = sid) :
    ∃ s', fetchRemembered p g c false = some s' ∧ s'.id = sid := by
  obtain ⟨s', rest, hl, hid'⟩ := liveStreamsListById_head p sid s hs hid
  refine ⟨s', ?_, hid'⟩
  unfold fetchRemembered
  rw [hsid]
  simp [hl]

/-- C9: each `getExistingStream` call issues at most one persistence write;
every issued write targets the resolved ground's role-specific stream-id
field of this academy and carries the returned stream id; the academy
document keeps its identity and name and every ground keeps all fields other
than the resolved ground's role-specific stream id; when the remembered
stream is successfully fetched the call issues zero writes and leaves the
platform and the document untouched; and the creation path issues exactly
one write. -/
theorem getExistingStream_write_frame (p : Platform) (a : AcademyRec) (gid : String)
    (c ff insf : Bool) :
    (getExistingStream p a gid c ff insf).writes.length ≤ 1 ∧
    (∀ w ∈ (getExistingStream p a gid c ff insf).writes,
      w.academyId = a.academyId ∧ w.groundId = gid ∧ w.field = roleField c ∧
      resStreamId (getExistingStream p a gid c ff insf).res = some w.value) ∧
    (getExistingStream p a gid c ff insf).academy.academyId = a.academyId ∧
    (getExistingStream p a gid c ff insf).academy.name = a.name ∧
    List.Forall₂ (groundFrameOk c gid) a.grounds
      (getExistingStream p a gid c ff insf).academy.grounds ∧
    (∀ g, a.grounds.find? (fun x => x.groundId == gid) = some g →
      ∀ s, fetchRemembered p g c ff = some s →
      (getExistingStream p a gid c ff insf).writes = [] ∧
      (getExistingStream p a gid c ff insf).platform = p ∧
      (getExistingStream p a gid c ff insf).academy = a) ∧
    (∀ g, a.grounds.find? (fun x => x.groundId == gid) = some g →
      fetchRemembered p g c ff = none → insf = false →
      (getExistingStream p a gid c ff insf).writes.length = 1) := by
  rcases hfind : a.grounds.find? (fun x => x.groundId == gid) with _ | g
  · rw [getExistingStream_run_noGround p a gid c ff insf hfind]
    refine ⟨by simp, by simp, rfl, rfl, ?_, ?_, ?_⟩
    · exact List.forall₂_same.mpr fun x _ => groundFrameOk_refl c gid x
    · intro g' hg' s hs
      exact ⟨rfl, rfl, rfl⟩
    · intro g' hg' hnone hinsf
      rw [hfind] at hg'
      exact absurd hg' (by simp)
  · rcases hfetch : fetchRemembered p g c ff with _ | s
    · cases insf with
      | true =>
        rw [getExistingStream_run_insertFails p a gid c ff g hfind hfetch]
        refine ⟨by simp, by simp, rfl, rfl, ?_, ?_, ?_⟩
        · exact List.forall₂_same.mpr fun x _ => groundFrameOk_refl c gid x
        · intro g' hg' s hs
          exact ⟨rfl, rfl, rfl⟩
        · intro g' hg' hnone hinsf
          exact absurd hinsf (by simp)
      | false =>
        rw [getExistingStream_run_create p a gid c ff g hfind hfetch]
        have hpred : (g.groundId == gid) = true := by
          simpa using List.find?_some hfind
        refine ⟨by simp, ?_, applyWrite_academyId a _, applyWrite_name a _, ?_, ?_, ?_⟩
        · intro w hw
          rw [List.mem_singleton] at hw
          subst hw
          exact ⟨rfl, rfl, rfl, rfl⟩
        · rw [applyWrite_self_grounds a _ rfl]
          exact forall2_updateFirstGround _ _ _ a.grounds
            (groundFrameOk_refl c gid)
            (fun g0 h0 => groundFrameOk_set c gid _ g0 h0)
        · intro g' hg' s hs
          rw [hfind] at hg'
          injection hg' with hgg
          subst hgg
          rw [hfetch] at hs
          exact absurd hs (by simp)
        · intro _ _ _ _
          rfl
    · rw [getExistingStream_run_fetched p a gid c ff insf g s hfind hfetch]
      refine ⟨by simp, by simp, rfl, rfl, ?_, ?_, ?_⟩
      · exact List.forall₂_same.mpr fun x _ => groundFrameOk_refl c gid x
      · intro g' hg' s' hs'
        exact ⟨rfl, rfl, rfl⟩
      · intro g' hg' hnone hinsf
        rw [hfind] at hg'
        injection hg' with hgg
        subst hgg
        rw [hfetch] at hnone
        exact absurd hnone (by simp)

/-- C9 witness: a venue ground remembering stream id `"s1"` that resolves on
the platform — the call issues no write and changes nothing. -/
theorem getExistingStream_write_frame_witness :
    (getExistingStream ⟨[⟨"s1", "t", "k", "addr", "1080p", "30fps", "rtmp"⟩], 5⟩
      ⟨"acad1", "Acme", [⟨"g1", "Main", "key-1", some "s1", none⟩]⟩
      "g1" false false false).writes = [] ∧
    (getExistingStream ⟨[⟨"s1", "t", "k", "addr", "1080p", "30fps", "rtmp"⟩], 5⟩
      ⟨"acad1", "Acme", [⟨"g1", "Main", "key-1", some "s1", none⟩]⟩
      "g1" false false false).platform =
      ⟨[⟨"s1", "t", "k", "addr", "1080p", "30fps", "rtmp"⟩], 5⟩ ∧
    (getExistingStream ⟨[⟨"s1", "t", "k", "addr", "1080p", "30fps", "rtmp"⟩], 5⟩
      ⟨"acad1", "Acme", [⟨"g1", "Main", "key-1", some "s1", none⟩]⟩
      "g1" false false false).academy =
      ⟨"acad1", "Acme", [⟨"g1", "Main", "key-1", some "s1", none⟩]⟩ :=
  (getExistingStream_write_frame
      ⟨[⟨"s1", "t", "k", "addr", "1080p", "30fps", "rtmp"⟩], 5⟩
      ⟨"acad1", "Acme", [⟨"g1", "Main", "key-1", some "s1", none⟩]⟩
      "g1" false false false).2.2.2.2.2.1
    ⟨"g1", "Main", "key-1", some "s1", none⟩ rfl
    ⟨"s1", "t", "k", "addr", "1080p", "30fps", "rtmp"⟩ rfl

/-- C7: if a first `getExistingStream` call for a (channel role, ground) pair
succeeded, a second call for the same pair against the resulting platform and
persisted venue record (with a succeeding fetch, i.e. the remembered id still
resolves) returns the same stream id, creates no second remote stream, and
issues no write. -/
theorem getExistingStream_idempotent (p : Platform) (a : AcademyRec) (gid : String)
    (c ff insf insf2 : Bool) (r1 : StreamResult) (p1 : Platform) (a1 : AcademyRec)
    (w1 : List DbWrite)
    (h : getExistingStream p a gid c ff insf = ⟨.ok r1, p1, a1, w1⟩) :
    resStreamId (getExistingStream p1 a1 gid c false insf2).res = some r1.streamId ∧
    (getExistingStream p1 a1 gid c false insf2).platform = p1 ∧
    (getExistingStream p1 a1 gid c false insf2).academy = a1 ∧
    (getExistingStream p1 a1 gid c false insf2).writes = [] := by
  rcases hfind : a.grounds.find? (fun x => x.groundId == gid) with _ | g
  · rw [getExistingStream_run_noGround p a gid c ff insf hfind] at h
    simp [ResolveOut.mk.injEq] at h
  · rcases hfetch : fetchRemembered p g c ff with _ | s
    · cases insf with
      | true =>
        rw [getExistingStream_run_insertFails p a gid c ff g hfind hfetch] at h
        simp [ResolveOut.mk.injEq] at h
      | false =>
        rw [getExistingStream_run_create p a gid c ff g hfind hfetch] at h
        obtain ⟨hres, hp, ha, hw⟩ := by simpa [ResolveOut.mk.injEq] using h
        have hpred : (g.groundId == gid) = true := by
          simpa using List.find?_some hfind
        have hfind2 :
            (applyWrite a ⟨a.academyId, gid, roleField c,
              (liveStreamsInsert p (newStreamSnippetTitle a g c)
                (newStreamIngestionName a g c)).1.id⟩).grounds.find?
              (fun x => x.groundId == gid) =
            some (setGroundField g (roleField c)
              (liveStreamsInsert p (newStreamSnippetTitle a g c)
                (newStreamIngestionName a g c)).1.id) := by
          rw [applyWrite_self_grounds a _ rfl]
          exact find?_updateFirstGround _ _ a.grounds g hfind
            (by rw [setGroundField_groundId]; exact hpred)
        have hmem :
            (liveStreamsInsert p (newStreamSnippetTitle a g c)
              (newStreamIngestionName a g c)).1 ∈
            (liveStreamsInsert p (newStreamSnippetTitle a g c)
              (newStreamIngestionName a g c)).2.streams := by
          simp [liveStreamsInsert]
        obtain ⟨s', hfr, hsid'⟩ := fetchRemembered_of_listed
          (liveStreamsInsert p (newStreamSnippetTitle a g c)
            (newStreamIngestionName a g c)).2
          (setGroundField g (roleField c)
            (liveStreamsInsert p (newStreamSnippetTitle a g c)
              (newStreamIngestionName a g c)).1.id)
          c
          (liveStreamsInsert p (newStreamSnippetTitle a g c)
            (newStreamIngestionName a g c)).1.id
          (groundStreamId_set_role g _ c)
          (liveStreamsInsert p (newStreamSnippetTitle a g c)
            (newStreamIngestionName a g c)).1
          hmem rfl
        rw [← hp, ← ha]
        rw [getExistingStream_run_fetched _ _ gid c false insf2 _ s' hfind2 hfr]
        refine ⟨?_, rfl, rfl, rfl⟩
        rw [← hres]
        show some s'.id = _
        rw [hsid']
        rfl
    · rw [getExistingStream_run_fetched p a gid c ff insf g s hfind hfetch] at h
      obtain ⟨hres, hp, ha, hw⟩ := by simpa [ResolveOut.mk.injEq] using h
      have hff : ff = false := fetchRemembered_ff_eq_false p g c ff s hfetch
      subst hff
      rw [← hp, ← ha]
      rw [getExistingStream_run_fetched p a gid c false insf2 g s hfind hfetch]
      refine ⟨?_, rfl, rfl, rfl⟩
      rw [← hres]
      rfl

/-- C7 witness: a first resolution that creates and persists stream
`"yt-stream-0"` for ground `"g1"`, followed by a second resolution for the
same pair, which reuses it. -/
theorem getExistingStream_idempotent_witness :
    resStreamId
      (getExistingStream
        ⟨[⟨"yt-stream-0", "Main Ground - Stream", "key-1",
           "rtmp://a.rtmp.youtube.com/live2", "1080p", "30fps", "rtmp"⟩], 1⟩
        ⟨"acad1", "Acme", [⟨"g1", "Main Ground", "key-1", some "yt-stream-0", none⟩]⟩
        "g1" false false false).res = some "yt-stream-0" ∧
    (getExistingStream
        ⟨[⟨"yt-stream-0", "Main Ground - Stream", "key-1",
           "rtmp://a.rtmp.youtube.com/live2", "1080p", "30fps", "rtmp"⟩], 1⟩
        ⟨"acad1", "Acme", [⟨"g1", "Main Ground", "key-1", some "yt-stream-0", none⟩]⟩
        "g1" false false false).platform =
      ⟨[⟨"yt-stream-0", "Main Ground - Stream", "key-1",
         "rtmp://a.rtmp.youtube.com/live2", "1080p", "30fps", "rtmp"⟩], 1⟩ ∧
    (getExistingStream
        ⟨[⟨"yt-stream-0", "Main Ground - Stream", "key-1",
           "rtmp://a.rtmp.youtube.com/live2", "1080p", "30fps", "rtmp"⟩], 1⟩
        ⟨"acad1", "Acme", [⟨"g1", "Main Ground", "key-1", some "yt-stream-0", none⟩]⟩
        "g1" false false false).academy =
      ⟨"acad1", "Acme", [⟨"g1", "Main Ground", "key-1", some "yt-stream-0", none⟩]⟩ ∧
    (getExistingStream
        ⟨[⟨"yt-stream-0", "Main Ground - Stream", "key-1",
           "rtmp://a.rtmp.youtube.com/live2", "1080p", "30fps", "rtmp"⟩], 1⟩
        ⟨"acad1", "Acme", [⟨"g1", "Main Ground", "key-1", some "yt-stream-0", none⟩]⟩
        "g1" false false false).writes = [] :=
  getExistingStream_idempotent
    ⟨[], 0⟩ ⟨"acad1", "Acme", [⟨"g1", "Main Ground", "key-1", none, none⟩]⟩
    "g1" false false false false
    ⟨"yt-stream-0", "key-1", "rtmp://a.rtmp.youtube.com/live2", ⟨"1080p", "30fps", "rtmp"⟩⟩
    ⟨[⟨"yt-stream-0", "Main Ground - Stream", "key-1",
       "rtmp://a.rtmp.youtube.com/live2", "1080p", "30fps", "rtmp"⟩], 1⟩
    ⟨"acad1", "Acme", [⟨"g1", "Main Ground", "key-1", some "yt-stream-0", none⟩]⟩
    [⟨"acad1", "g1", "academyStreamId", "yt-stream-0"⟩]
    rfl

end LiveStream
